import Mathlib

/-!
Verification of the Rubik's-cube application (`src/`): a shallow embedding of
the 2D facelet state machine (`rubix_cube/rubix_2d.py`), the breadth-first
solver (`rubix_cube/rubix_solver.py`), the 3D transform engine
(`graphics/engine.py`) and the solid-model layer selection
(`graphics/cube.py`, `main.py`), together with theorems settling the frozen
claims about them.
-/

set_option maxRecDepth 4000

/-- The six sticker colours assigned by `Rubix2D.__init__` (rubix_2d.py 38-43). -/
inductive Colour : Type
  | yellow
  | white
  | green
  | blue
  | red
  | orange
  deriving DecidableEq

/-- One 3×3 facelet grid (a `List[List[str]]` in the source), addressed
row-then-column: `g i j` is `side[i][j]`. -/
abbrev Grid (α : Type) : Type := Fin 3 → Fin 3 → α

/-- `INVERSE = {0: 2, 1: 1, 2: 0}` (rubix_2d.py line 21). -/
def INVERSE (i : Fin 3) : Fin 3 := ⟨2 - i.val, by omega⟩

/-- One clockwise quarter turn of a grid: one iteration of the loop in
`rotate_arr` (`arr = list(zip(*arr[::-1]))`, rubix_2d.py 223-224), which
sends cell `(i, j)` to the old value at `(2 - j, i)`. -/
def rotate_arr_step (arr : Grid α) : Grid α := fun i j => arr (INVERSE j) i

/-- `rotate_arr(arr, iters)`: rotate the grid 90° clockwise `iters` times
(rubix_2d.py 211-228). -/
def rotate_arr (arr : Grid α) (iters : Nat) : Grid α := rotate_arr_step^[iters] arr

/-- The 2D cube state: the six 3×3 grids of `Rubix2D` (rubix_2d.py 31-43). -/
@[ext]
structure Rubix2D (α : Type) where
  top : Grid α
  bottom : Grid α
  left : Grid α
  right : Grid α
  front : Grid α
  back : Grid α

/-- `Rubix2D.__init__` (rubix_2d.py 38-43): the solved state. -/
def Rubix2D.init : Rubix2D Colour where
  top := fun _ _ => .yellow
  bottom := fun _ _ => .white
  left := fun _ _ => .green
  right := fun _ _ => .blue
  front := fun _ _ => .red
  back := fun _ _ => .orange

/-- Replace row `y` of a grid (the in-place row assignment `side[y] = row`). -/
def updRow (g : Grid α) (y : Fin 3) (row : Fin 3 → α) : Grid α :=
  fun i j => if i = y then row j else g i j

/-- One iteration of the loop in `Rubix2D.rotate_x` (rubix_2d.py 60-66):
`front[y], right[y], back[y], left[y] = left[y], front[y], right[y], back[y]`
(the tuple on the right is evaluated before any assignment). -/
def rotate_x_step (y : Fin 3) (s : Rubix2D α) : Rubix2D α :=
  { s with
    front := updRow s.front y (s.left y)
    right := updRow s.right y (s.front y)
    back := updRow s.back y (s.right y)
    left := updRow s.left y (s.back y) }

/-- `Rubix2D.rotate_x(y, iters)` (rubix_2d.py 45-69): cycle row `y` of the
four side faces `iters` times, then rotate the top grid `3*iters` times if
`y == 0` and the bottom grid `iters` times if `y == 2`. -/
def Rubix2D.rotate_x (s : Rubix2D α) (y : Fin 3) (iters : Nat) : Rubix2D α :=
  let s1 := (rotate_x_step y)^[iters] s
  { s1 with
    top := if y = 0 then rotate_arr s1.top (3 * iters) else s1.top
    bottom := if y = 2 then rotate_arr s1.bottom (1 * iters) else s1.bottom }

/-- One iteration of the loop in `Rubix2D.rotate_y` (rubix_2d.py 87-101):
all reads are from the deep copies of `front`, `top`, `back`, `bottom` taken
at the top of the iteration, so the four column writes are simultaneous.
With `inv_x = INVERSE x` the writes are
`front[i][x] = top[i][x]`, `bottom[i][x] = front[i][x]`,
`top[i][x] = back[2-i][inv_x]`, `back[i][inv_x] = bottom[2-i][x]`. -/
def rotate_y_step (x : Fin 3) (s : Rubix2D α) : Rubix2D α :=
  { s with
    front := fun i j => if j = x then s.top i x else s.front i j
    bottom := fun i j => if j = x then s.front i x else s.bottom i j
    top := fun i j => if j = x then s.back (INVERSE i) (INVERSE x) else s.top i j
    back := fun i j => if j = INVERSE x then s.bottom (INVERSE i) x else s.back i j }

/-- `Rubix2D.rotate_y(x, iters)` (rubix_2d.py 71-104): cycle column `x`
through front/bottom/back/top `iters` times, then rotate the left grid
`iters` times if `x == 0` and the right grid `3*iters` times if `x == 2`. -/
def Rubix2D.rotate_y (s : Rubix2D α) (x : Fin 3) (iters : Nat) : Rubix2D α :=
  let s1 := (rotate_y_step x)^[iters] s
  { s1 with
    left := if x = 0 then rotate_arr s1.left (1 * iters) else s1.left
    right := if x = 2 then rotate_arr s1.right (3 * iters) else s1.right }

/-- One iteration of the loop in `Rubix2D.rotate_z` (rubix_2d.py 121-135):
all reads are from the deep copies of `left`, `top`, `right`, `bottom` taken
at the top of the iteration. With `inv_z = INVERSE z` the writes are
`top[z][i] = left[2-i][z]`, `bottom[inv_z][i] = right[2-i][inv_z]`,
`right[i][inv_z] = top[z][i]`, `left[i][z] = bottom[inv_z][i]`. -/
def rotate_z_step (z : Fin 3) (s : Rubix2D α) : Rubix2D α :=
  { s with
    top := fun i j => if i = z then s.left (INVERSE j) z else s.top i j
    bottom := fun i j => if i = INVERSE z then s.right (INVERSE j) (INVERSE z) else s.bottom i j
    right := fun i j => if j = INVERSE z then s.top z i else s.right i j
    left := fun i j => if j = z then s.bottom (INVERSE z) i else s.left i j }

/-- `Rubix2D.rotate_z(z, iters)` (rubix_2d.py 106-138): cycle the ring at
depth `z` through top/right/bottom/left `iters` times, then rotate the back
grid `3*iters` times if `z == 0` and the front grid `iters` times if `z == 2`. -/
def Rubix2D.rotate_z (s : Rubix2D α) (z : Fin 3) (iters : Nat) : Rubix2D α :=
  let s1 := (rotate_z_step z)^[iters] s
  { s1 with
    back := if z = 0 then rotate_arr s1.back (3 * iters) else s1.back
    front := if z = 2 then rotate_arr s1.front (1 * iters) else s1.front }

/-- The set of colours appearing on one side:
`set(colour for row in side for colour in row)` (rubix_2d.py 148). -/
def sideColours [DecidableEq α] (g : Grid α) : Finset α :=
  Finset.image (fun p : Fin 3 × Fin 3 => g p.1 p.2) Finset.univ

/-- `Rubix2D.is_solved` (rubix_2d.py 140-157): every one of the six sides
shows exactly one colour. -/
def Rubix2D.is_solved [DecidableEq α] (s : Rubix2D α) : Bool :=
  decide (∀ g ∈ [s.top, s.bottom, s.left, s.right, s.front, s.back],
    (sideColours g).card = 1)

/-- `rotate_side(index, rubix)` (rubix_2d.py 160-208), the Move Catalog.
An index outside 1-18 matches no case of the Python `match` statement, so
the call returns with the cube untouched and no exception is raised. -/
def rotate_side (index : Nat) (rubix : Rubix2D α) : Rubix2D α :=
  match index with
  | 1 => rubix.rotate_x 2 1
  | 2 => rubix.rotate_x 1 1
  | 3 => rubix.rotate_x 0 1
  | 4 => rubix.rotate_y 0 1
  | 5 => rubix.rotate_y 1 1
  | 6 => rubix.rotate_y 2 1
  | 7 => rubix.rotate_z 0 1
  | 8 => rubix.rotate_z 1 1
  | 9 => rubix.rotate_z 2 1
  | 10 => rubix.rotate_x 2 3
  | 11 => rubix.rotate_x 1 3
  | 12 => rubix.rotate_x 0 3
  | 13 => rubix.rotate_y 0 3
  | 14 => rubix.rotate_y 1 3
  | 15 => rubix.rotate_y 2 3
  | 16 => rubix.rotate_z 0 3
  | 17 => rubix.rotate_z 1 3
  | 18 => rubix.rotate_z 2 3
  | _ => rubix

/-! ## Solver (`rubix_cube/rubix_solver.py`)

In this pure value-level embedding `copy.deepcopy` of a grid or cube is the
identity on values; object identity is modelled separately below for the
frame claim. The `while True` loop is given explicit fuel counting dequeues.
-/

/-- The body of `for move in range(1, 19)` (rubix_solver.py 65-74), run over
the remaining move list: apply each move to a (deep-copied) cube, return
`Sum.inl` with the extended step list at the first move whose result is
solved, otherwise `Sum.inr` with the list of `(new_steps, new_rubix)` pairs
to append to the queue. -/
def expandMoves [DecidableEq α] (steps : List Nat) (rubix : Rubix2D α) :
    List Nat → Sum (List Nat) (List (List Nat × Rubix2D α))
  | [] => Sum.inr []
  | move :: rest =>
      let new_steps := steps ++ [move]
      let new_rubix := rotate_side move rubix
      if new_rubix.is_solved then Sum.inl new_steps
      else
        match expandMoves steps rubix rest with
        | Sum.inl sol => Sum.inl sol
        | Sum.inr queued => Sum.inr ((new_steps, new_rubix) :: queued)

/-- The `while True` loop of `breath_first_search` (rubix_solver.py 62-74):
pop the front of the queue, expand it by all 18 moves, return the first
solving step list, else push the children and continue. `fuel` bounds the
number of dequeues; `none` means the fuel ran out (the Python loop would
still be running) or the queue was empty (where Python's `popleft` would
fail; unreachable from `breath_first_search`, which never lets the queue
empty). -/
def bfsLoop [DecidableEq α] : Nat → List (List Nat × Rubix2D α) → Option (List Nat)
  | 0, _ => none
  | _ + 1, [] => none
  | fuel + 1, (steps, rubix) :: queue =>
      match expandMoves steps rubix (List.range' 1 18) with
      | Sum.inl sol => some sol
      | Sum.inr queued => bfsLoop fuel (queue ++ queued)

/-- `breath_first_search(top, front, left, right, back, bottom)`
(rubix_solver.py 20-74): build a cube from deep copies of the six argument
grids, return `[]` if it is already solved, otherwise run the search loop
starting from the queue `[([], rubix)]`. -/
def breath_first_search [DecidableEq α] (fuel : Nat)
    (top front left right back bottom : Grid α) : Option (List Nat) :=
  let rubix : Rubix2D α :=
    { top := top, bottom := bottom, left := left, right := right,
      front := front, back := back }
  if rubix.is_solved then some []
  else bfsLoop fuel [([], rubix)]

/-! ## Transform engine (`graphics/engine.py`)

Coordinates are modelled over `ℚ` (exact arithmetic in place of Python
floats). The `rotation` decorator (engine.py 64-99) computes the sine and
cosine of the angle and passes them to the wrapped function, whose body is
what is embedded here; quantifying over the `cos`/`sin` arguments covers
every angle. -/

namespace engine

/-- `TransformationError` (engine.py 25-26), raised by `transform_coord`. -/
inductive TransformationError : Type
  | behindCamera
  deriving DecidableEq

/-- `transform_coord(vert, scale_factor)` (engine.py 29-61): raise if
`z <= 0`, else return `[(x / z * 15) * scale_factor, (y / z * 15) * scale_factor]`. -/
def transform_coord (vert : ℚ × ℚ × ℚ) (scale_factor : ℚ) :
    Except TransformationError (ℚ × ℚ) :=
  if vert.2.2 ≤ 0 then Except.error TransformationError.behindCamera
  else Except.ok (vert.1 / vert.2.2 * 15 * scale_factor,
                  vert.2.1 / vert.2.2 * 15 * scale_factor)

/-- `rotate_x(vert, center, cos, sin)` (engine.py 102-132): with
`x = vert[0] - center[0]` and `z = vert[2] - center[2]` it returns
`(x*cos - z*sin + center[0], vert[1], z*cos + x*sin + center[2])`. -/
def rotate_x (vert center : ℚ × ℚ × ℚ) (cos sin : ℚ) : ℚ × ℚ × ℚ :=
  let x := vert.1 - center.1
  let z := vert.2.2 - center.2.2
  (x * cos - z * sin + center.1, vert.2.1, z * cos + x * sin + center.2.2)

/-- `rotate_y(vert, center, cos, sin)` (engine.py 135-165): with
`y = vert[1] - center[1]` and `z = vert[2] - center[2]` it returns
`(vert[0], y*cos - z*sin + center[1], z*cos + y*sin + center[2])`. -/
def rotate_y (vert center : ℚ × ℚ × ℚ) (cos sin : ℚ) : ℚ × ℚ × ℚ :=
  let y := vert.2.1 - center.2.1
  let z := vert.2.2 - center.2.2
  (vert.1, y * cos - z * sin + center.2.1, z * cos + y * sin + center.2.2)

/-- `rotate_z(vert, center, cos, sin)` (engine.py 168-197): with
`x = vert[0] - center[0]` and `y = vert[1] - center[1]` it returns
`(x*cos - y*sin + center[0], y*cos + x*sin + center[1], vert[2])`. -/
def rotate_z (vert center : ℚ × ℚ × ℚ) (cos sin : ℚ) : ℚ × ℚ × ℚ :=
  let x := vert.1 - center.1
  let y := vert.2.1 - center.2.1
  (x * cos - y * sin + center.1, y * cos + x * sin + center.2.1, vert.2.2)

/-- The standard 2D rotation about a centre that all three axis rotations
apply to their moving coordinate pair. -/
def rot2 (p q cp cq cos sin : ℚ) : ℚ × ℚ :=
  ((p - cp) * cos - (q - cq) * sin + cp, (q - cq) * cos + (p - cp) * sin + cq)

end engine

/-! ## Solid model (`graphics/cube.py`, scene assembly in `main.py`) -/

namespace graphics

/-- `CubeTemplate.CUBE_VERTS` (cube.py 34-43). -/
def CUBE_VERTS : List (ℚ × ℚ × ℚ) :=
  [(-1/2, -1/2, -1/2), (1/2, -1/2, -1/2), (1/2, 1/2, -1/2), (-1/2, 1/2, -1/2),
   (-1/2, -1/2, 1/2), (1/2, -1/2, 1/2), (1/2, 1/2, 1/2), (-1/2, 1/2, 1/2)]

/-- `CubeTemplate.CUBE_POLYS` (cube.py 45-52). -/
def CUBE_POLYS : List (List Nat) :=
  [[0, 1, 2, 3], [4, 5, 6, 7], [0, 1, 5, 4], [1, 2, 6, 5], [2, 3, 7, 6], [3, 0, 4, 7]]

/-- `Shape` (shape.py 34-48): a colour and a polygon of 3D points, plus the
view-orientation angles (defaulting to 45), which `filter_cubes` never reads. -/
structure Shape where
  colour : String
  poly : List (ℚ × ℚ × ℚ)
  orientation_x : ℚ := 45
  orientation_y : ℚ := 45

/-- `Cube` (cube.py 55-84): a lattice position and six face colours. -/
structure Cube where
  x : ℤ
  y : ℤ
  z : ℤ
  colours : List String

/-- The six `Shape`s built by `Cube.__post_init__` (cube.py 69-82): for each
polygon of `CUBE_POLYS`, the template vertices offset by the cube's
position, zipped with the cube's colours. -/
def Cube.shapes (c : Cube) : List Shape :=
  (c.colours.zip (CUBE_POLYS.map fun face_indexes =>
      face_indexes.map fun index =>
        let v := CUBE_VERTS.getD index (0, 0, 0)
        (v.1 + (c.x : ℚ), v.2.1 + (c.y : ℚ), v.2.2 + (c.z : ℚ)))).map
    fun p => { colour := p.1, poly := p.2 }

/-- `vert[index]` for `index` in 0-2 (0 = x, 1 = y, 2 = z). -/
def coordAt (v : ℚ × ℚ × ℚ) (index : Fin 3) : ℚ :=
  if index = 0 then v.1 else if index = 1 then v.2.1 else v.2.2

/-- The generator `(vert[index] for face in cube.cube for vert in face.poly)`
(cube.py 100-102). -/
def vertCoords (c : Cube) (index : Fin 3) : List ℚ :=
  c.shapes.flatMap fun face => face.poly.map fun v => coordAt v index

/-- `filter_cubes(cube, index, target)` (cube.py 87-103): true iff the
maximum of the cube's face-vertex coordinates on the axis is strictly above
`target` and the minimum strictly below. `max`/`min` of the (always
nonempty) generator are modelled with `List.max?`/`List.min?`. -/
def filter_cubes (cube : Cube) (index : Fin 3) (target : ℚ) : Bool :=
  match (vertCoords cube index).max?, (vertCoords cube index).min? with
  | some mx, some mn => decide (mx > target ∧ target > mn)
  | _, _ => false

/-- The 27 cubes assembled at startup (main.py 37-63), in source order. -/
def mainCubes : List Cube :=
  [⟨0, 0, 0, ["black", "black", "black", "black", "black", "black"]⟩,
   ⟨0, 0, 1, ["black", "orange", "black", "black", "black", "black"]⟩,
   ⟨0, 0, -1, ["red", "black", "black", "black", "black", "black"]⟩,
   ⟨1, 0, 0, ["black", "black", "black", "blue", "black", "black"]⟩,
   ⟨1, 0, 1, ["black", "orange", "black", "blue", "black", "black"]⟩,
   ⟨1, 0, -1, ["red", "black", "black", "blue", "black", "black"]⟩,
   ⟨-1, 0, 0, ["black", "black", "black", "black", "black", "green"]⟩,
   ⟨-1, 0, 1, ["black", "orange", "black", "black", "black", "green"]⟩,
   ⟨-1, 0, -1, ["red", "black", "black", "black", "black", "green"]⟩,
   ⟨0, 1, 0, ["black", "black", "black", "black", "white", "black"]⟩,
   ⟨1, 1, 0, ["black", "black", "black", "blue", "white", "black"]⟩,
   ⟨1, 1, -1, ["red", "black", "black", "blue", "white", "black"]⟩,
   ⟨1, 1, 1, ["black", "orange", "black", "blue", "white", "black"]⟩,
   ⟨0, 1, -1, ["red", "black", "black", "black", "white", "black"]⟩,
   ⟨-1, 1, -1, ["red", "black", "black", "black", "white", "green"]⟩,
   ⟨0, 1, 1, ["black", "orange", "black", "black", "white", "black"]⟩,
   ⟨-1, 1, 1, ["black", "orange", "black", "black", "white", "green"]⟩,
   ⟨-1, 1, 0, ["black", "black", "black", "black", "white", "green"]⟩,
   ⟨1, -1, 0, ["black", "black", "yellow", "blue", "black", "black"]⟩,
   ⟨1, -1, 1, ["black", "orange", "yellow", "blue", "black", "black"]⟩,
   ⟨1, -1, -1, ["red", "black", "yellow", "blue", "black", "black"]⟩,
   ⟨-1, -1, 0, ["black", "black", "yellow", "black", "black", "green"]⟩,
   ⟨-1, -1, 1, ["black", "orange", "yellow", "black", "black", "green"]⟩,
   ⟨-1, -1, -1, ["red", "black", "yellow", "black", "black", "green"]⟩,
   ⟨0, -1, 0, ["black", "black", "yellow", "black", "black", "black"]⟩,
   ⟨0, -1, 1, ["black", "orange", "yellow", "black", "black", "black"]⟩,
   ⟨0, -1, -1, ["red", "black", "yellow", "black", "black", "black"]⟩]

end graphics

/-! ## Cell indexing for the colour-conservation invariant

A cell of the whole state is addressed by `(side, row, column)` with sides
numbered 0 top, 1 bottom, 2 left, 3 right, 4 front, 5 back. -/

/-- The six grids of a state, in the order they are listed in `is_solved`. -/
def sides (s : Rubix2D α) : Fin 6 → Grid α
  | ⟨0, _⟩ => s.top
  | ⟨1, _⟩ => s.bottom
  | ⟨2, _⟩ => s.left
  | ⟨3, _⟩ => s.right
  | ⟨4, _⟩ => s.front
  | ⟨5, _⟩ => s.back

/-- How many of the 54 cells of the state hold colour `c`. -/
def colourCount [DecidableEq α] (s : Rubix2D α) (c : α) : ℕ :=
  ∑ p : Fin 6 × Fin 3 × Fin 3, if sides s p.1 p.2.1 p.2.2 = c then 1 else 0

/-- The cell permutation realised by one `rotate_x_step y`: each moved cell
of the new state reads the cell of the old state this function points to. -/
def permX (y : Fin 3) (p : Fin 6 × Fin 3 × Fin 3) : Fin 6 × Fin 3 × Fin 3 :=
  if p.2.1 = y ∧ p.1 = 4 then (2, p.2.1, p.2.2)
  else if p.2.1 = y ∧ p.1 = 3 then (4, p.2.1, p.2.2)
  else if p.2.1 = y ∧ p.1 = 5 then (3, p.2.1, p.2.2)
  else if p.2.1 = y ∧ p.1 = 2 then (5, p.2.1, p.2.2)
  else p

/-- The cell permutation realised by one `rotate_y_step x`. -/
def permY (x : Fin 3) (p : Fin 6 × Fin 3 × Fin 3) : Fin 6 × Fin 3 × Fin 3 :=
  if p.2.2 = x ∧ p.1 = 4 then (0, p.2.1, p.2.2)
  else if p.2.2 = x ∧ p.1 = 1 then (4, p.2.1, p.2.2)
  else if p.2.2 = x ∧ p.1 = 0 then (5, INVERSE p.2.1, INVERSE x)
  else if p.2.2 = INVERSE x ∧ p.1 = 5 then (1, INVERSE p.2.1, x)
  else p

/-- The cell permutation realised by one `rotate_z_step z`. -/
def permZ (z : Fin 3) (p : Fin 6 × Fin 3 × Fin 3) : Fin 6 × Fin 3 × Fin 3 :=
  if p.1 = 0 ∧ p.2.1 = z then (2, INVERSE p.2.2, z)
  else if p.1 = 1 ∧ p.2.1 = INVERSE z then (3, INVERSE p.2.2, INVERSE z)
  else if p.1 = 3 ∧ p.2.2 = INVERSE z then (0, z, p.2.1)
  else if p.1 = 2 ∧ p.2.2 = z then (1, INVERSE z, p.2.1)
  else p

/-- The cell permutation realised by one clockwise `rotate_arr_step` applied
to side `k` alone. -/
def permFace (k : Fin 6) (p : Fin 6 × Fin 3 × Fin 3) : Fin 6 × Fin 3 × Fin 3 :=
  if p.1 = k then (k, INVERSE p.2.2, p.2.1) else p

/-! ## Object-level model of the solver (`rubix_cube/rubix_solver.py`)

For the frame claim the heap is made explicit: every Python grid object
(`List[List[str]]` together with its row lists) is one addressed cell of a
store, since `copy.deepcopy` severs all sharing between an original and its
copy at every level. Mutations of a grid object are collapsed into one
store write of its final value per loop iteration (the addresses touched
are exactly those the Python writes touch, which is what the frame theorem
is about); the read-only deep copies taken inside `rotate_y`/`rotate_z`
iterations and the temporaries of `rotate_arr` are kept as value reads. -/

/-- A heap of grid objects: `mem a` is the value of the object at address
`a`; addresses `≥ next` are unallocated. -/
structure Store (α : Type) where
  mem : Nat → Grid α
  next : Nat

/-- Read the grid object at address `a`. -/
def Store.read (σ : Store α) (a : Nat) : Grid α := σ.mem a

/-- Mutate the grid object at address `a` in place. -/
def Store.write (σ : Store α) (a : Nat) (g : Grid α) : Store α :=
  ⟨fun b => if b = a then g else σ.mem b, σ.next⟩

/-- Allocate a fresh grid object holding `g`, returning its address. -/
def Store.alloc (σ : Store α) (g : Grid α) : Nat × Store α :=
  (σ.next, ⟨fun b => if b = σ.next then g else σ.mem b, σ.next + 1⟩)

/-- The attribute table of a `Rubix2D` object: the addresses of its six
grid objects. -/
structure CubeRef where
  top : Nat
  bottom : Nat
  left : Nat
  right : Nat
  front : Nat
  back : Nat

/-- The cube value currently reachable from a `CubeRef`. -/
def CubeRef.val (r : CubeRef) (σ : Store α) : Rubix2D α :=
  ⟨σ.read r.top, σ.read r.bottom, σ.read r.left, σ.read r.right,
   σ.read r.front, σ.read r.back⟩

/-- One iteration of the row-swap loop of `rotate_x` on the heap: the four
row reads happen before the four in-place row writes (Python evaluates the
whole right-hand tuple first, then assigns the slots left to right). -/
def rotate_x_stepS (r : CubeRef) (y : Fin 3) (σ : Store α) : Store α :=
  let f := σ.read r.front
  let ri := σ.read r.right
  let b := σ.read r.back
  let l := σ.read r.left
  ((((σ.write r.front (updRow f y (l y))).write r.right (updRow ri y (f y))).write
      r.back (updRow b y (ri y))).write r.left (updRow l y (b y)))

/-- One iteration of the loop of `rotate_y` on the heap: reads come from
the deep copies taken at the top of the iteration, writes mutate the four
grid objects in place (their per-cell writes collapsed to one write of the
iteration's final value; the four addresses are distinct in every run of
the program). -/
def rotate_y_stepS (r : CubeRef) (x : Fin 3) (σ : Store α) : Store α :=
  let t := rotate_y_step x (r.val σ)
  (((σ.write r.front t.front).write r.bottom t.bottom).write
      r.top t.top).write r.back t.back

/-- One iteration of the loop of `rotate_z` on the heap, as for
`rotate_y_stepS`. -/
def rotate_z_stepS (r : CubeRef) (z : Fin 3) (σ : Store α) : Store α :=
  let t := rotate_z_step z (r.val σ)
  (((σ.write r.top t.top).write r.bottom t.bottom).write
      r.right t.right).write r.left t.left

/-- `Rubix2D.rotate_x(y, iters)` on the heap. The conditional
`self.top = rotate_arr(self.top, 3 * iters)` rebinds the `top` attribute to
the fresh list built by `rotate_arr`, modelled as an allocation; likewise
for `bottom`. -/
def rotate_xS (r : CubeRef) (y : Fin 3) (iters : Nat) (σ : Store α) :
    CubeRef × Store α :=
  let σ1 := (rotate_x_stepS r y)^[iters] σ
  let p2 := if y = 0 then
      let av := σ1.alloc (rotate_arr (σ1.read r.top) (3 * iters))
      ({ r with top := av.1 }, av.2)
    else (r, σ1)
  if y = 2 then
    let av := p2.2.alloc (rotate_arr (p2.2.read p2.1.bottom) (1 * iters))
    ({ p2.1 with bottom := av.1 }, av.2)
  else p2

/-- `Rubix2D.rotate_y(x, iters)` on the heap. -/
def rotate_yS (r : CubeRef) (x : Fin 3) (iters : Nat) (σ : Store α) :
    CubeRef × Store α :=
  let σ1 := (rotate_y_stepS r x)^[iters] σ
  let p2 := if x = 0 then
      let av := σ1.alloc (rotate_arr (σ1.read r.left) (1 * iters))
      ({ r with left := av.1 }, av.2)
    else (r, σ1)
  if x = 2 then
    let av := p2.2.alloc (rotate_arr (p2.2.read p2.1.right) (3 * iters))
    ({ p2.1 with right := av.1 }, av.2)
  else p2

/-- `Rubix2D.rotate_z(z, iters)` on the heap. -/
def rotate_zS (r : CubeRef) (z : Fin 3) (iters : Nat) (σ : Store α) :
    CubeRef × Store α :=
  let σ1 := (rotate_z_stepS r z)^[iters] σ
  let p2 := if z = 0 then
      let av := σ1.alloc (rotate_arr (σ1.read r.back) (3 * iters))
      ({ r with back := av.1 }, av.2)
    else (r, σ1)
  if z = 2 then
    let av := p2.2.alloc (rotate_arr (p2.2.read p2.1.front) (1 * iters))
    ({ p2.1 with front := av.1 }, av.2)
  else p2

/-- `rotate_side(index, rubix)` on the heap. -/
def rotate_sideS (index : Nat) (r : CubeRef) (σ : Store α) : CubeRef × Store α :=
  match index with
  | 1 => rotate_xS r 2 1 σ
  | 2 => rotate_xS r 1 1 σ
  | 3 => rotate_xS r 0 1 σ
  | 4 => rotate_yS r 0 1 σ
  | 5 => rotate_yS r 1 1 σ
  | 6 => rotate_yS r 2 1 σ
  | 7 => rotate_zS r 0 1 σ
  | 8 => rotate_zS r 1 1 σ
  | 9 => rotate_zS r 2 1 σ
  | 10 => rotate_xS r 2 3 σ
  | 11 => rotate_xS r 1 3 σ
  | 12 => rotate_xS r 0 3 σ
  | 13 => rotate_yS r 0 3 σ
  | 14 => rotate_yS r 1 3 σ
  | 15 => rotate_yS r 2 3 σ
  | 16 => rotate_zS r 0 3 σ
  | 17 => rotate_zS r 1 3 σ
  | 18 => rotate_zS r 2 3 σ
  | _ => (r, σ)

/-- `copy.deepcopy(rubix)` (rubix_solver.py 67): six fresh grid objects
holding the current values of the cube's grids. -/
def deepcopyCubeS (r : CubeRef) (σ : Store α) : CubeRef × Store α :=
  let t := σ.alloc (σ.read r.top)
  let bo := t.2.alloc (t.2.read r.bottom)
  let l := bo.2.alloc (bo.2.read r.left)
  let ri := l.2.alloc (l.2.read r.right)
  let f := ri.2.alloc (ri.2.read r.front)
  let b := f.2.alloc (f.2.read r.back)
  (⟨t.1, bo.1, l.1, ri.1, f.1, b.1⟩, b.2)

/-- The move loop of the solver (rubix_solver.py 65-74) on the heap. -/
def expandMovesS [DecidableEq α] (steps : List Nat) (r : CubeRef) :
    List Nat → Store α → (Sum (List Nat) (List (List Nat × CubeRef))) × Store α
  | [], σ => (Sum.inr [], σ)
  | move :: rest, σ =>
      let new_steps := steps ++ [move]
      let c1 := deepcopyCubeS r σ
      let c2 := rotate_sideS move c1.1 c1.2
      if (c2.1.val c2.2).is_solved then (Sum.inl new_steps, c2.2)
      else
        match expandMovesS steps r rest c2.2 with
        | (Sum.inl sol, σ3) => (Sum.inl sol, σ3)
        | (Sum.inr queued, σ3) => (Sum.inr ((new_steps, c2.1) :: queued), σ3)

/-- The `while True` loop of the solver on the heap, fuelled as in `bfsLoop`. -/
def bfsLoopS [DecidableEq α] :
    Nat → List (List Nat × CubeRef) → Store α → Option (List Nat) × Store α
  | 0, _, σ => (none, σ)
  | _ + 1, [], σ => (none, σ)
  | fuel + 1, (steps, r) :: queue, σ =>
      match expandMovesS steps r (List.range' 1 18) σ with
      | (Sum.inl sol, σ2) => (some sol, σ2)
      | (Sum.inr queued, σ2) => bfsLoopS fuel (queue ++ queued) σ2

/-- `breath_first_search` (rubix_solver.py 20-74) on the heap. The six
arguments are the addresses of the caller's grid objects (in the source,
the live `Rubix2D`'s attributes, rubix_cube.py 112-119). `Rubix2D()` first
allocates six default grids (rubix_2d.py 38-43); the `copy.deepcopy` of
each argument then allocates a fresh object with the argument's value and
rebinds the attribute, so no argument address is ever written. -/
def breath_first_searchS (fuel : Nat)
    (top front left right back bottom : Nat) (σ : Store Colour) :
    Option (List Nat) × Store Colour :=
  let i1 := σ.alloc fun _ _ => Colour.yellow
  let i2 := i1.2.alloc fun _ _ => Colour.white
  let i3 := i2.2.alloc fun _ _ => Colour.green
  let i4 := i3.2.alloc fun _ _ => Colour.blue
  let i5 := i4.2.alloc fun _ _ => Colour.red
  let i6 := i5.2.alloc fun _ _ => Colour.orange
  let t := i6.2.alloc (i6.2.read top)
  let f := t.2.alloc (t.2.read front)
  let l := f.2.alloc (f.2.read left)
  let ri := l.2.alloc (l.2.read right)
  let b := ri.2.alloc (ri.2.read back)
  let bo := b.2.alloc (b.2.read bottom)
  let rubix : CubeRef := ⟨t.1, bo.1, l.1, ri.1, f.1, b.1⟩
  if (rubix.val bo.2).is_solved then (some [], bo.2)
  else bfsLoopS fuel [([], rubix)] bo.2

/-- Address `a` is below the watermark `n` for every grid of `r`: `r` was
built entirely from objects allocated at or after `n`. -/
def RefAbove (n : Nat) (r : CubeRef) : Prop :=
  n ≤ r.top ∧ n ≤ r.bottom ∧ n ≤ r.left ∧ n ≤ r.right ∧ n ≤ r.front ∧ n ≤ r.back

/-- Between `σ` and `σ'`, nothing below the watermark `n` was written, and
the allocation frontier stayed at or above `n`. -/
def FrameFrom (n : Nat) (σ σ' : Store α) : Prop :=
  n ≤ σ'.next ∧ ∀ a, a < n → σ'.mem a = σ.mem a

instance : Std.Antisymm fun x1 x2 : ℚ => x1 ≤ x2 := ⟨fun h h2 => le_antisymm h h2⟩

/-! ## Lemmas: colour conservation -/

lemma colourCount_eq_of_reindex [DecidableEq α] (s t : Rubix2D α)
    (e : Fin 6 × Fin 3 × Fin 3 → Fin 6 × Fin 3 × Fin 3) (he : Function.Bijective e)
    (h : ∀ p, sides t p.1 p.2.1 p.2.2 = sides s (e p).1 (e p).2.1 (e p).2.2) (c : α) :
    colourCount t c = colourCount s c := by
  unfold colourCount
  rw [← Function.Bijective.sum_comp he fun q => if sides s q.1 q.2.1 q.2.2 = c then 1 else 0]
  exact Finset.sum_congr rfl fun p _ => by rw [h p]

lemma permX_bijective : ∀ y : Fin 3, Function.Bijective (permX y) := by decide

lemma permY_bijective : ∀ x : Fin 3, Function.Bijective (permY x) := by decide

lemma permZ_bijective : ∀ z : Fin 3, Function.Bijective (permZ z) := by decide

lemma permFace_bijective : ∀ k : Fin 6, Function.Bijective (permFace k) := by decide

lemma sides_rotate_x_step (y : Fin 3) (s : Rubix2D α) (f : Fin 6) (i j : Fin 3) :
    sides (rotate_x_step y s) f i j =
      sides s (permX y (f, i, j)).1 (permX y (f, i, j)).2.1 (permX y (f, i, j)).2.2 := by
  fin_cases f <;> by_cases h : i = y <;>
    simp [sides, rotate_x_step, permX, updRow, h]

lemma sides_rotate_y_step (x : Fin 3) (s : Rubix2D α) (f : Fin 6) (i j : Fin 3) :
    sides (rotate_y_step x s) f i j =
      sides s (permY x (f, i, j)).1 (permY x (f, i, j)).2.1 (permY x (f, i, j)).2.2 := by
  fin_cases x <;> fin_cases f <;> fin_cases i <;> fin_cases j <;> rfl

lemma sides_rotate_z_step (z : Fin 3) (s : Rubix2D α) (f : Fin 6) (i j : Fin 3) :
    sides (rotate_z_step z s) f i j =
      sides s (permZ z (f, i, j)).1 (permZ z (f, i, j)).2.1 (permZ z (f, i, j)).2.2 := by
  fin_cases z <;> fin_cases f <;> fin_cases i <;> fin_cases j <;> rfl

lemma colourCount_rotate_x_step [DecidableEq α] (y : Fin 3) (s : Rubix2D α) (c : α) :
    colourCount (rotate_x_step y s) c = colourCount s c :=
  colourCount_eq_of_reindex s _ (permX y) (permX_bijective y)
    (fun p => sides_rotate_x_step y s p.1 p.2.1 p.2.2) c

lemma colourCount_rotate_y_step [DecidableEq α] (x : Fin 3) (s : Rubix2D α) (c : α) :
    colourCount (rotate_y_step x s) c = colourCount s c :=
  colourCount_eq_of_reindex s _ (permY x) (permY_bijective x)
    (fun p => sides_rotate_y_step x s p.1 p.2.1 p.2.2) c

lemma colourCount_rotate_z_step [DecidableEq α] (z : Fin 3) (s : Rubix2D α) (c : α) :
    colourCount (rotate_z_step z s) c = colourCount s c :=
  colourCount_eq_of_reindex s _ (permZ z) (permZ_bijective z)
    (fun p => sides_rotate_z_step z s p.1 p.2.1 p.2.2) c

lemma colourCount_iterate [DecidableEq α] (f : Rubix2D α → Rubix2D α) (c : α)
    (hf : ∀ t, colourCount (f t) c = colourCount t c) :
    ∀ (k : Nat) (t : Rubix2D α), colourCount (f^[k] t) c = colourCount t c := by
  intro k
  induction k with
  | zero => intro t; rfl
  | succ n ih =>
      intro t
      rw [Function.iterate_succ_apply, ih (f t), hf t]

lemma colourCount_top_rot [DecidableEq α] (s : Rubix2D α) (c : α) :
    colourCount { s with top := rotate_arr_step s.top } c = colourCount s c := by
  refine colourCount_eq_of_reindex s _ (permFace 0) (permFace_bijective 0) (fun p => ?_) c
  obtain ⟨f, i, j⟩ := p
  fin_cases f <;> simp [sides, permFace, rotate_arr_step]

lemma colourCount_bottom_rot [DecidableEq α] (s : Rubix2D α) (c : α) :
    colourCount { s with bottom := rotate_arr_step s.bottom } c = colourCount s c := by
  refine colourCount_eq_of_reindex s _ (permFace 1) (permFace_bijective 1) (fun p => ?_) c
  obtain ⟨f, i, j⟩ := p
  fin_cases f <;> simp [sides, permFace, rotate_arr_step]

lemma colourCount_left_rot [DecidableEq α] (s : Rubix2D α) (c : α) :
    colourCount { s with left := rotate_arr_step s.left } c = colourCount s c := by
  refine colourCount_eq_of_reindex s _ (permFace 2) (permFace_bijective 2) (fun p => ?_) c
  obtain ⟨f, i, j⟩ := p
  fin_cases f <;> simp [sides, permFace, rotate_arr_step]

lemma colourCount_right_rot [DecidableEq α] (s : Rubix2D α) (c : α) :
    colourCount { s with right := rotate_arr_step s.right } c = colourCount s c := by
  refine colourCount_eq_of_reindex s _ (permFace 3) (permFace_bijective 3) (fun p => ?_) c
  obtain ⟨f, i, j⟩ := p
  fin_cases f <;> simp [sides, permFace, rotate_arr_step]

lemma colourCount_front_rot [DecidableEq α] (s : Rubix2D α) (c : α) :
    colourCount { s with front := rotate_arr_step s.front } c = colourCount s c := by
  refine colourCount_eq_of_reindex s _ (permFace 4) (permFace_bijective 4) (fun p => ?_) c
  obtain ⟨f, i, j⟩ := p
  fin_cases f <;> simp [sides, permFace, rotate_arr_step]

lemma colourCount_back_rot [DecidableEq α] (s : Rubix2D α) (c : α) :
    colourCount { s with back := rotate_arr_step s.back } c = colourCount s c := by
  refine colourCount_eq_of_reindex s _ (permFace 5) (permFace_bijective 5) (fun p => ?_) c
  obtain ⟨f, i, j⟩ := p
  fin_cases f <;> simp [sides, permFace, rotate_arr_step]

lemma colourCount_top_rotate_arr [DecidableEq α] (s : Rubix2D α) (k : Nat) (c : α) :
    colourCount { s with top := rotate_arr s.top k } c = colourCount s c := by
  induction k with
  | zero => rfl
  | succ n ih =>
      have h : rotate_arr s.top (n + 1) = rotate_arr_step (rotate_arr s.top n) :=
        Function.iterate_succ_apply' _ _ _
      rw [show ({ s with top := rotate_arr s.top (n + 1) } : Rubix2D α)
          = { s with top := rotate_arr_step (rotate_arr s.top n) } by rw [h]]
      exact (colourCount_top_rot { s with top := rotate_arr s.top n } c).trans ih

lemma colourCount_bottom_rotate_arr [DecidableEq α] (s : Rubix2D α) (k : Nat) (c : α) :
    colourCount { s with bottom := rotate_arr s.bottom k } c = colourCount s c := by
  induction k with
  | zero => rfl
  | succ n ih =>
      have h : rotate_arr s.bottom (n + 1) = rotate_arr_step (rotate_arr s.bottom n) :=
        Function.iterate_succ_apply' _ _ _
      rw [show ({ s with bottom := rotate_arr s.bottom (n + 1) } : Rubix2D α)
          = { s with bottom := rotate_arr_step (rotate_arr s.bottom n) } by rw [h]]
      exact (colourCount_bottom_rot { s with bottom := rotate_arr s.bottom n } c).trans ih

lemma colourCount_left_rotate_arr [DecidableEq α] (s : Rubix2D α) (k : Nat) (c : α) :
    colourCount { s with left := rotate_arr s.left k } c = colourCount s c := by
  induction k with
  | zero => rfl
  | succ n ih =>
      have h : rotate_arr s.left (n + 1) = rotate_arr_step (rotate_arr s.left n) :=
        Function.iterate_succ_apply' _ _ _
      rw [show ({ s with left := rotate_arr s.left (n + 1) } : Rubix2D α)
          = { s with left := rotate_arr_step (rotate_arr s.left n) } by rw [h]]
      exact (colourCount_left_rot { s with left := rotate_arr s.left n } c).trans ih

lemma colourCount_right_rotate_arr [DecidableEq α] (s : Rubix2D α) (k : Nat) (c : α) :
    colourCount { s with right := rotate_arr s.right k } c = colourCount s c := by
  induction k with
  | zero => rfl
  | succ n ih =>
      have h : rotate_arr s.right (n + 1) = rotate_arr_step (rotate_arr s.right n) :=
        Function.iterate_succ_apply' _ _ _
      rw [show ({ s with right := rotate_arr s.right (n + 1) } : Rubix2D α)
          = { s with right := rotate_arr_step (rotate_arr s.right n) } by rw [h]]
      exact (colourCount_right_rot { s with right := rotate_arr s.right n } c).trans ih

lemma colourCount_front_rotate_arr [DecidableEq α] (s : Rubix2D α) (k : Nat) (c : α) :
    colourCount { s with front := rotate_arr s.front k } c = colourCount s c := by
  induction k with
  | zero => rfl
  | succ n ih =>
      have h : rotate_arr s.front (n + 1) = rotate_arr_step (rotate_arr s.front n) :=
        Function.iterate_succ_apply' _ _ _
      rw [show ({ s with front := rotate_arr s.front (n + 1) } : Rubix2D α)
          = { s with front := rotate_arr_step (rotate_arr s.front n) } by rw [h]]
      exact (colourCount_front_rot { s with front := rotate_arr s.front n } c).trans ih

lemma colourCount_back_rotate_arr [DecidableEq α] (s : Rubix2D α) (k : Nat) (c : α) :
    colourCount { s with back := rotate_arr s.back k } c = colourCount s c := by
  induction k with
  | zero => rfl
  | succ n ih =>
      have h : rotate_arr s.back (n + 1) = rotate_arr_step (rotate_arr s.back n) :=
        Function.iterate_succ_apply' _ _ _
      rw [show ({ s with back := rotate_arr s.back (n + 1) } : Rubix2D α)
          = { s with back := rotate_arr_step (rotate_arr s.back n) } by rw [h]]
      exact (colourCount_back_rot { s with back := rotate_arr s.back n } c).trans ih

lemma colourCount_rotate_x [DecidableEq α] (s : Rubix2D α) (y : Fin 3) (iters : Nat) (c : α) :
    colourCount (s.rotate_x y iters) c = colourCount s c := by
  have hs1 : colourCount ((rotate_x_step y)^[iters] s) c = colourCount s c :=
    colourCount_iterate _ c (colourCount_rotate_x_step y · c) iters s
  set s1 := (rotate_x_step y)^[iters] s with hdef
  show colourCount { s1 with
      top := if y = 0 then rotate_arr s1.top (3 * iters) else s1.top,
      bottom := if y = 2 then rotate_arr s1.bottom (1 * iters) else s1.bottom } c
    = colourCount s c
  by_cases h0 : y = 0
  · have h2 : ¬y = 2 := by rw [h0]; decide
    rw [if_pos h0, if_neg h2]
    exact (colourCount_top_rotate_arr s1 (3 * iters) c).trans hs1
  · rw [if_neg h0]
    by_cases h2 : y = 2
    · rw [if_pos h2]
      exact (colourCount_bottom_rotate_arr s1 (1 * iters) c).trans hs1
    · rw [if_neg h2]
      exact hs1

lemma colourCount_rotate_y [DecidableEq α] (s : Rubix2D α) (x : Fin 3) (iters : Nat) (c : α) :
    colourCount (s.rotate_y x iters) c = colourCount s c := by
  have hs1 : colourCount ((rotate_y_step x)^[iters] s) c = colourCount s c :=
    colourCount_iterate _ c (colourCount_rotate_y_step x · c) iters s
  set s1 := (rotate_y_step x)^[iters] s with hdef
  show colourCount { s1 with
      left := if x = 0 then rotate_arr s1.left (1 * iters) else s1.left,
      right := if x = 2 then rotate_arr s1.right (3 * iters) else s1.right } c
    = colourCount s c
  by_cases h0 : x = 0
  · have h2 : ¬x = 2 := by rw [h0]; decide
    rw [if_pos h0, if_neg h2]
    exact (colourCount_left_rotate_arr s1 (1 * iters) c).trans hs1
  · rw [if_neg h0]
    by_cases h2 : x = 2
    · rw [if_pos h2]
      exact (colourCount_right_rotate_arr s1 (3 * iters) c).trans hs1
    · rw [if_neg h2]
      exact hs1

lemma colourCount_rotate_z [DecidableEq α] (s : Rubix2D α) (z : Fin 3) (iters : Nat) (c : α) :
    colourCount (s.rotate_z z iters) c = colourCount s c := by
  have hs1 : colourCount ((rotate_z_step z)^[iters] s) c = colourCount s c :=
    colourCount_iterate _ c (colourCount_rotate_z_step z · c) iters s
  set s1 := (rotate_z_step z)^[iters] s with hdef
  show colourCount { s1 with
      back := if z = 0 then rotate_arr s1.back (3 * iters) else s1.back,
      front := if z = 2 then rotate_arr s1.front (1 * iters) else s1.front } c
    = colourCount s c
  by_cases h0 : z = 0
  · have h2 : ¬z = 2 := by rw [h0]; decide
    rw [if_pos h0, if_neg h2]
    exact (colourCount_back_rotate_arr s1 (3 * iters) c).trans hs1
  · rw [if_neg h0]
    by_cases h2 : z = 2
    · rw [if_pos h2]
      exact (colourCount_front_rotate_arr s1 (1 * iters) c).trans hs1
    · rw [if_neg h2]
      exact hs1

lemma colourCount_rotate_side [DecidableEq α] (m : Nat) (h1 : 1 ≤ m) (h2 : m ≤ 18)
    (s : Rubix2D α) (c : α) : colourCount (rotate_side m s) c = colourCount s c := by
  interval_cases m
  · exact colourCount_rotate_x s 2 1 c
  · exact colourCount_rotate_x s 1 1 c
  · exact colourCount_rotate_x s 0 1 c
  · exact colourCount_rotate_y s 0 1 c
  · exact colourCount_rotate_y s 1 1 c
  · exact colourCount_rotate_y s 2 1 c
  · exact colourCount_rotate_z s 0 1 c
  · exact colourCount_rotate_z s 1 1 c
  · exact colourCount_rotate_z s 2 1 c
  · exact colourCount_rotate_x s 2 3 c
  · exact colourCount_rotate_x s 1 3 c
  · exact colourCount_rotate_x s 0 3 c
  · exact colourCount_rotate_y s 0 3 c
  · exact colourCount_rotate_y s 1 3 c
  · exact colourCount_rotate_y s 2 3 c
  · exact colourCount_rotate_z s 0 3 c
  · exact colourCount_rotate_z s 1 3 c
  · exact colourCount_rotate_z s 2 3 c

/-! ## Lemmas: faces untouched by a middle-layer turn -/

lemma iterate_rotate_x_step_top (y : Fin 3) :
    ∀ (k : Nat) (s : Rubix2D α), ((rotate_x_step y)^[k] s).top = s.top := by
  intro k
  induction k with
  | zero => intro s; rfl
  | succ n ih => intro s; rw [Function.iterate_succ_apply, ih (rotate_x_step y s)]; rfl

lemma iterate_rotate_x_step_bottom (y : Fin 3) :
    ∀ (k : Nat) (s : Rubix2D α), ((rotate_x_step y)^[k] s).bottom = s.bottom := by
  intro k
  induction k with
  | zero => intro s; rfl
  | succ n ih => intro s; rw [Function.iterate_succ_apply, ih (rotate_x_step y s)]; rfl

lemma iterate_rotate_y_step_left (x : Fin 3) :
    ∀ (k : Nat) (s : Rubix2D α), ((rotate_y_step x)^[k] s).left = s.left := by
  intro k
  induction k with
  | zero => intro s; rfl
  | succ n ih => intro s; rw [Function.iterate_succ_apply, ih (rotate_y_step x s)]; rfl

lemma iterate_rotate_y_step_right (x : Fin 3) :
    ∀ (k : Nat) (s : Rubix2D α), ((rotate_y_step x)^[k] s).right = s.right := by
  intro k
  induction k with
  | zero => intro s; rfl
  | succ n ih => intro s; rw [Function.iterate_succ_apply, ih (rotate_y_step x s)]; rfl

lemma iterate_rotate_z_step_front (z : Fin 3) :
    ∀ (k : Nat) (s : Rubix2D α), ((rotate_z_step z)^[k] s).front = s.front := by
  intro k
  induction k with
  | zero => intro s; rfl
  | succ n ih => intro s; rw [Function.iterate_succ_apply, ih (rotate_z_step z s)]; rfl

lemma iterate_rotate_z_step_back (z : Fin 3) :
    ∀ (k : Nat) (s : Rubix2D α), ((rotate_z_step z)^[k] s).back = s.back := by
  intro k
  induction k with
  | zero => intro s; rfl
  | succ n ih => intro s; rw [Function.iterate_succ_apply, ih (rotate_z_step z s)]; rfl

/-! ## Lemmas: layer selection on the startup scene -/

namespace graphics

lemma vertCoords_y {x y z : ℤ} {a b c d e f : String} :
    vertCoords ⟨x, y, z, [a, b, c, d, e, f]⟩ 1 =
      [-1/2 + (y : ℚ), -1/2 + y, 1/2 + y, 1/2 + y,
       -1/2 + y, -1/2 + y, 1/2 + y, 1/2 + y,
       -1/2 + y, -1/2 + y, -1/2 + y, -1/2 + y,
       -1/2 + y, 1/2 + y, 1/2 + y, -1/2 + y,
       1/2 + y, 1/2 + y, 1/2 + y, 1/2 + y,
       1/2 + y, -1/2 + y, -1/2 + y, 1/2 + y] := rfl

lemma vertCoords_y_max {x y z : ℤ} {a b c d e f : String} :
    (vertCoords ⟨x, y, z, [a, b, c, d, e, f]⟩ 1).max? = some ((y : ℚ) + 1/2) := by
  rw [vertCoords_y, List.max?_eq_some_iff le_refl max_choice fun a b c => max_le_iff]
  have h : (y : ℚ) + 1/2 = 1/2 + y := by ring
  refine ⟨by rw [h]; simp, ?_⟩
  intro b hb
  fin_cases hb <;> linarith

lemma vertCoords_y_min {x y z : ℤ} {a b c d e f : String} :
    (vertCoords ⟨x, y, z, [a, b, c, d, e, f]⟩ 1).min? = some ((y : ℚ) - 1/2) := by
  rw [vertCoords_y, List.min?_eq_some_iff le_refl min_choice fun a b c => le_min_iff]
  have h : (y : ℚ) - 1/2 = -1/2 + y := by ring
  refine ⟨by rw [h]; simp, ?_⟩
  intro b hb
  fin_cases hb <;> linarith

lemma filter_cubes_y1 {x y z : ℤ} {a b c d e f : String} :
    filter_cubes ⟨x, y, z, [a, b, c, d, e, f]⟩ 1 1 = decide (y = 1) := by
  rw [filter_cubes, vertCoords_y_max, vertCoords_y_min, decide_eq_decide]
  constructor
  · rintro ⟨h1, h2⟩
    have hy0 : (0 : ℤ) < y := by exact_mod_cast show (0 : ℚ) < (y : ℚ) by linarith
    have hy2 : y < 2 := by exact_mod_cast show (y : ℚ) < 2 by linarith
    omega
  · rintro rfl
    norm_num

end graphics

/-! ## Lemmas: the solver heap model writes only to objects it allocates -/

lemma frameFrom_trans {n : Nat} {σ1 σ2 σ3 : Store α}
    (h1 : FrameFrom n σ1 σ2) (h2 : FrameFrom n σ2 σ3) : FrameFrom n σ1 σ3 :=
  ⟨h2.1, fun a ha => (h2.2 a ha).trans (h1.2 a ha)⟩

lemma frameFrom_refl {n : Nat} {σ : Store α} (hn : n ≤ σ.next) : FrameFrom n σ σ :=
  ⟨hn, fun _ _ => rfl⟩

lemma frameFrom_write {n : Nat} (σ : Store α) (a : Nat) (g : Grid α)
    (ha : n ≤ a) (hn : n ≤ σ.next) : FrameFrom n σ (σ.write a g) :=
  ⟨hn, fun b hb => if_neg (by omega)⟩

lemma frameFrom_alloc {n : Nat} (σ : Store α) (g : Grid α)
    (hn : n ≤ σ.next) : FrameFrom n σ (σ.alloc g).2 :=
  ⟨by show n ≤ σ.next + 1; omega, fun b hb => if_neg (by omega)⟩

lemma frameFrom_rotate_x_stepS {n : Nat} {r : CubeRef} {y : Fin 3} {σ : Store α}
    (hr : RefAbove n r) (hn : n ≤ σ.next) : FrameFrom n σ (rotate_x_stepS r y σ) := by
  obtain ⟨ht, hb, hl, hri, hf, hba⟩ := hr
  exact frameFrom_trans (frameFrom_write _ _ _ hf hn)
    (frameFrom_trans (frameFrom_write _ _ _ hri hn)
      (frameFrom_trans (frameFrom_write _ _ _ hba hn) (frameFrom_write _ _ _ hl hn)))

lemma frameFrom_rotate_y_stepS {n : Nat} {r : CubeRef} {x : Fin 3} {σ : Store α}
    (hr : RefAbove n r) (hn : n ≤ σ.next) : FrameFrom n σ (rotate_y_stepS r x σ) := by
  obtain ⟨ht, hb, hl, hri, hf, hba⟩ := hr
  exact frameFrom_trans (frameFrom_write _ _ _ hf hn)
    (frameFrom_trans (frameFrom_write _ _ _ hb hn)
      (frameFrom_trans (frameFrom_write _ _ _ ht hn) (frameFrom_write _ _ _ hba hn)))

lemma frameFrom_rotate_z_stepS {n : Nat} {r : CubeRef} {z : Fin 3} {σ : Store α}
    (hr : RefAbove n r) (hn : n ≤ σ.next) : FrameFrom n σ (rotate_z_stepS r z σ) := by
  obtain ⟨ht, hb, hl, hri, hf, hba⟩ := hr
  exact frameFrom_trans (frameFrom_write _ _ _ ht hn)
    (frameFrom_trans (frameFrom_write _ _ _ hb hn)
      (frameFrom_trans (frameFrom_write _ _ _ hri hn) (frameFrom_write _ _ _ hl hn)))

lemma frameFrom_iterate {n : Nat} {f : Store α → Store α}
    (hf : ∀ σ2, n ≤ σ2.next → FrameFrom n σ2 (f σ2)) :
    ∀ (k : Nat) (σ : Store α), n ≤ σ.next → FrameFrom n σ (f^[k] σ) := by
  intro k
  induction k with
  | zero => intro σ hn; exact frameFrom_refl hn
  | succ m ih =>
      intro σ hn
      rw [Function.iterate_succ_apply]
      exact frameFrom_trans (hf σ hn) (ih (f σ) (hf σ hn).1)

lemma frame_rotate_xS {n : Nat} (r : CubeRef) (y : Fin 3) (iters : Nat) (σ : Store α)
    (hr : RefAbove n r) (hn : n ≤ σ.next) :
    FrameFrom n σ (rotate_xS r y iters σ).2 ∧ RefAbove n (rotate_xS r y iters σ).1 := by
  obtain ⟨ht, hb, hl, hri, hf, hba⟩ := hr
  have h1 : FrameFrom n σ ((rotate_x_stepS r y)^[iters] σ) := frameFrom_iterate
    (fun σ2 hn2 => frameFrom_rotate_x_stepS ⟨ht, hb, hl, hri, hf, hba⟩ hn2) iters σ hn
  fin_cases y <;> simp only [rotate_xS] <;> simp
  · exact ⟨frameFrom_trans h1 (frameFrom_alloc _ _ h1.1), h1.1, hb, hl, hri, hf, hba⟩
  · exact ⟨h1, ht, hb, hl, hri, hf, hba⟩
  · exact ⟨frameFrom_trans h1 (frameFrom_alloc _ _ h1.1), ht, h1.1, hl, hri, hf, hba⟩

lemma frame_rotate_yS {n : Nat} (r : CubeRef) (x : Fin 3) (iters : Nat) (σ : Store α)
    (hr : RefAbove n r) (hn : n ≤ σ.next) :
    FrameFrom n σ (rotate_yS r x iters σ).2 ∧ RefAbove n (rotate_yS r x iters σ).1 := by
  obtain ⟨ht, hb, hl, hri, hf, hba⟩ := hr
  have h1 : FrameFrom n σ ((rotate_y_stepS r x)^[iters] σ) := frameFrom_iterate
    (fun σ2 hn2 => frameFrom_rotate_y_stepS ⟨ht, hb, hl, hri, hf, hba⟩ hn2) iters σ hn
  fin_cases x <;> simp only [rotate_yS] <;> simp
  · exact ⟨frameFrom_trans h1 (frameFrom_alloc _ _ h1.1), ht, hb, h1.1, hri, hf, hba⟩
  · exact ⟨h1, ht, hb, hl, hri, hf, hba⟩
  · exact ⟨frameFrom_trans h1 (frameFrom_alloc _ _ h1.1), ht, hb, hl, h1.1, hf, hba⟩

lemma frame_rotate_zS {n : Nat} (r : CubeRef) (z : Fin 3) (iters : Nat) (σ : Store α)
    (hr : RefAbove n r) (hn : n ≤ σ.next) :
    FrameFrom n σ (rotate_zS r z iters σ).2 ∧ RefAbove n (rotate_zS r z iters σ).1 := by
  obtain ⟨ht, hb, hl, hri, hf, hba⟩ := hr
  have h1 : FrameFrom n σ ((rotate_z_stepS r z)^[iters] σ) := frameFrom_iterate
    (fun σ2 hn2 => frameFrom_rotate_z_stepS ⟨ht, hb, hl, hri, hf, hba⟩ hn2) iters σ hn
  fin_cases z <;> simp only [rotate_zS] <;> simp
  · exact ⟨frameFrom_trans h1 (frameFrom_alloc _ _ h1.1), ht, hb, hl, hri, hf, h1.1⟩
  · exact ⟨h1, ht, hb, hl, hri, hf, hba⟩
  · exact ⟨frameFrom_trans h1 (frameFrom_alloc _ _ h1.1), ht, hb, hl, hri, h1.1, hba⟩

lemma frame_rotate_sideS {n : Nat} (move : Nat) (r : CubeRef) (σ : Store α)
    (hr : RefAbove n r) (hn : n ≤ σ.next) :
    FrameFrom n σ (rotate_sideS move r σ).2 ∧ RefAbove n (rotate_sideS move r σ).1 := by
  match move with
  | 1 => exact frame_rotate_xS r 2 1 σ hr hn
  | 2 => exact frame_rotate_xS r 1 1 σ hr hn
  | 3 => exact frame_rotate_xS r 0 1 σ hr hn
  | 4 => exact frame_rotate_yS r 0 1 σ hr hn
  | 5 => exact frame_rotate_yS r 1 1 σ hr hn
  | 6 => exact frame_rotate_yS r 2 1 σ hr hn
  | 7 => exact frame_rotate_zS r 0 1 σ hr hn
  | 8 => exact frame_rotate_zS r 1 1 σ hr hn
  | 9 => exact frame_rotate_zS r 2 1 σ hr hn
  | 10 => exact frame_rotate_xS r 2 3 σ hr hn
  | 11 => exact frame_rotate_xS r 1 3 σ hr hn
  | 12 => exact frame_rotate_xS r 0 3 σ hr hn
  | 13 => exact frame_rotate_yS r 0 3 σ hr hn
  | 14 => exact frame_rotate_yS r 1 3 σ hr hn
  | 15 => exact frame_rotate_yS r 2 3 σ hr hn
  | 16 => exact frame_rotate_zS r 0 3 σ hr hn
  | 17 => exact frame_rotate_zS r 1 3 σ hr hn
  | 18 => exact frame_rotate_zS r 2 3 σ hr hn
  | 0 => exact ⟨frameFrom_refl hn, hr⟩
  | (m + 19) => exact ⟨frameFrom_refl hn, hr⟩

lemma frame_deepcopyCubeS {n : Nat} (r : CubeRef) (σ : Store α) (hn : n ≤ σ.next) :
    FrameFrom n σ (deepcopyCubeS r σ).2 ∧ RefAbove n (deepcopyCubeS r σ).1 := by
  refine ⟨?_, ?_, ?_, ?_, ?_, ?_, ?_⟩
  · exact frameFrom_trans (frameFrom_alloc _ _ hn)
      (frameFrom_trans (frameFrom_alloc _ _ (by show n ≤ σ.next + 1; omega))
        (frameFrom_trans (frameFrom_alloc _ _ (by show n ≤ σ.next + 2; omega))
          (frameFrom_trans (frameFrom_alloc _ _ (by show n ≤ σ.next + 3; omega))
            (frameFrom_trans (frameFrom_alloc _ _ (by show n ≤ σ.next + 4; omega))
              (frameFrom_alloc _ _ (by show n ≤ σ.next + 5; omega))))))
  · show n ≤ σ.next
    omega
  · show n ≤ σ.next + 1
    omega
  · show n ≤ σ.next + 2
    omega
  · show n ≤ σ.next + 3
    omega
  · show n ≤ σ.next + 4
    omega
  · show n ≤ σ.next + 5
    omega

lemma frame_expandMovesS [DecidableEq α] {n : Nat} (steps : List Nat) (r : CubeRef) :
    ∀ (moves : List Nat) (σ : Store α), RefAbove n r → n ≤ σ.next →
      FrameFrom n σ (expandMovesS steps r moves σ).2 ∧
      ∀ sq, (expandMovesS steps r moves σ).1 = Sum.inr sq → ∀ p ∈ sq, RefAbove n p.2 := by
  intro moves
  induction moves with
  | nil =>
      intro σ hr hn
      refine ⟨frameFrom_refl hn, ?_⟩
      rintro sq h p hp
      simp only [expandMovesS, Sum.inr.injEq] at h
      subst h
      cases hp
  | cons mv rest ih =>
      intro σ hr hn
      have h1 := frame_deepcopyCubeS r σ hn
      have h2 := frame_rotate_sideS mv (deepcopyCubeS r σ).1 (deepcopyCubeS r σ).2 h1.2 h1.1.1
      have hσ2 : FrameFrom n σ
          (rotate_sideS mv (deepcopyCubeS r σ).1 (deepcopyCubeS r σ).2).2 :=
        frameFrom_trans h1.1 h2.1
      have ih2 := ih (rotate_sideS mv (deepcopyCubeS r σ).1 (deepcopyCubeS r σ).2).2 hr hσ2.1
      by_cases hs : ((rotate_sideS mv (deepcopyCubeS r σ).1 (deepcopyCubeS r σ).2).1.val
          (rotate_sideS mv (deepcopyCubeS r σ).1 (deepcopyCubeS r σ).2).2).is_solved = true
      · have he : expandMovesS steps r (mv :: rest) σ =
            (Sum.inl (steps ++ [mv]),
             (rotate_sideS mv (deepcopyCubeS r σ).1 (deepcopyCubeS r σ).2).2) := by
          simp only [expandMovesS]
          rw [if_pos hs]
        rw [he]
        exact ⟨hσ2, by rintro sq h; cases h⟩
      · cases hE : expandMovesS steps r rest
            ((rotate_sideS mv (deepcopyCubeS r σ).1 (deepcopyCubeS r σ).2).2) with
        | mk res σ3 =>
          rw [hE] at ih2
          cases res with
          | inl sol =>
              have he : expandMovesS steps r (mv :: rest) σ = (Sum.inl sol, σ3) := by
                simp only [expandMovesS]
                rw [if_neg hs, hE]
              rw [he]
              exact ⟨frameFrom_trans hσ2 ih2.1, by rintro sq h; cases h⟩
          | inr queued =>
              have he : expandMovesS steps r (mv :: rest) σ =
                  (Sum.inr ((steps ++ [mv],
                    (rotate_sideS mv (deepcopyCubeS r σ).1 (deepcopyCubeS r σ).2).1) :: queued),
                   σ3) := by
                simp only [expandMovesS]
                rw [if_neg hs, hE]
              rw [he]
              refine ⟨frameFrom_trans hσ2 ih2.1, ?_⟩
              rintro sq h p hp
              simp only [Sum.inr.injEq] at h
              subst h
              rcases List.mem_cons.mp hp with rfl | hmem
              · exact h2.2
              · exact ih2.2 queued rfl p hmem

lemma frame_bfsLoopS [DecidableEq α] {n : Nat} :
    ∀ (fuel : Nat) (queue : List (List Nat × CubeRef)) (σ : Store α),
      (∀ p ∈ queue, RefAbove n p.2) → n ≤ σ.next →
      FrameFrom n σ (bfsLoopS fuel queue σ).2 := by
  intro fuel
  induction fuel with
  | zero => intro queue σ hq hn; exact frameFrom_refl hn
  | succ m ih =>
      intro queue σ hq hn
      cases queue with
      | nil => exact frameFrom_refl hn
      | cons hd tl =>
          obtain ⟨steps, r⟩ := hd
          have hr : RefAbove n r := hq (steps, r) (List.mem_cons_self _ _)
          have hexp := frame_expandMovesS steps r (List.range' 1 18) σ hr hn
          cases hE : expandMovesS steps r (List.range' 1 18) σ with
          | mk res σ2 =>
            rw [hE] at hexp
            cases res with
            | inl sol =>
                have he : bfsLoopS (m + 1) ((steps, r) :: tl) σ = (some sol, σ2) := by
                  simp only [bfsLoopS]
                  rw [hE]
                rw [he]
                exact hexp.1
            | inr queued =>
                have he : bfsLoopS (m + 1) ((steps, r) :: tl) σ =
                    bfsLoopS m (tl ++ queued) σ2 := by
                  simp only [bfsLoopS]
                  rw [hE]
                rw [he]
                refine frameFrom_trans hexp.1 (ih (tl ++ queued) σ2 ?_ hexp.1.1)
                intro p hp
                rcases List.mem_append.mp hp with h | h
                · exact hq p (List.mem_cons_of_mem _ h)
                · exact hexp.2 queued rfl p h

lemma frameFrom_alloc_of {n : Nat} {σ σ2 : Store α} (h : FrameFrom n σ σ2) (g : Grid α) :
    FrameFrom n σ (σ2.alloc g).2 :=
  frameFrom_trans h (frameFrom_alloc σ2 g h.1)

lemma frame_breath_first_searchS (fuel : Nat)
    (top front left right back bottom : Nat) (σ : Store Colour) :
    FrameFrom σ.next σ (breath_first_searchS fuel top front left right back bottom σ).2 := by
  simp only [breath_first_searchS]
  split
  · exact frameFrom_alloc_of (frameFrom_alloc_of (frameFrom_alloc_of (frameFrom_alloc_of
      (frameFrom_alloc_of (frameFrom_alloc_of (frameFrom_alloc_of (frameFrom_alloc_of
        (frameFrom_alloc_of (frameFrom_alloc_of (frameFrom_alloc_of (frameFrom_alloc_of
          (frameFrom_refl le_rfl) _) _) _) _) _) _) _) _) _) _) _) _
  · refine frameFrom_trans
      (frameFrom_alloc_of (frameFrom_alloc_of (frameFrom_alloc_of (frameFrom_alloc_of
        (frameFrom_alloc_of (frameFrom_alloc_of (frameFrom_alloc_of (frameFrom_alloc_of
          (frameFrom_alloc_of (frameFrom_alloc_of (frameFrom_alloc_of (frameFrom_alloc_of
            (frameFrom_refl le_rfl) _) _) _) _) _) _) _) _) _) _) _) _)
      (frame_bfsLoopS fuel _ _ ?_ ?_)
    · rintro p hp
      rcases List.mem_singleton.mp hp with rfl
      refine ⟨?_, ?_, ?_, ?_, ?_, ?_⟩
      · show σ.next ≤ σ.next + 6
        omega
      · show σ.next ≤ σ.next + 11
        omega
      · show σ.next ≤ σ.next + 8
        omega
      · show σ.next ≤ σ.next + 9
        omega
      · show σ.next ≤ σ.next + 7
        omega
      · show σ.next ≤ σ.next + 10
        omega
    · show σ.next ≤ σ.next + 12
      omega

/-! ## Claim theorems -/

/-- C1: for the state obtained by applying move 1 to the freshly constructed
solved state, `breath_first_search` (given any positive fuel; the Python loop
needs a single dequeue here) returns the single-move sequence `[10]`, the
inverse of move 1, and that sequence re-solves the state. -/
theorem c1_solver_returns_inverse (fuel : Nat) (h : 1 ≤ fuel) :
    breath_first_search fuel (rotate_side 1 Rubix2D.init).top
      (rotate_side 1 Rubix2D.init).front (rotate_side 1 Rubix2D.init).left
      (rotate_side 1 Rubix2D.init).right (rotate_side 1 Rubix2D.init).back
      (rotate_side 1 Rubix2D.init).bottom = some [10] ∧
    (rotate_side 10 (rotate_side 1 Rubix2D.init)).is_solved = true := by
  refine ⟨?_, by decide⟩
  obtain ⟨n, rfl⟩ : ∃ n, fuel = n + 1 := ⟨fuel - 1, by omega⟩
  have hsolved : (rotate_side 1 Rubix2D.init).is_solved = false := by decide
  have hexp : expandMoves ([] : List Nat) (rotate_side 1 Rubix2D.init) (List.range' 1 18)
      = Sum.inl [10] := rfl
  show (if (rotate_side 1 Rubix2D.init).is_solved = true then some ([] : List Nat)
      else bfsLoop (n + 1) [([], rotate_side 1 Rubix2D.init)]) = some [10]
  rw [hsolved]
  simp only [Bool.false_eq_true, if_false]
  show (match expandMoves ([] : List Nat) (rotate_side 1 Rubix2D.init) (List.range' 1 18) with
        | Sum.inl sol => some sol
        | Sum.inr queued => bfsLoop n ([] ++ queued)) = some [10]
  rw [hexp]

/-- Witness for C1 at fuel 1. -/
theorem c1_witness :
    1 ≤ 1 ∧
    (breath_first_search 1 (rotate_side 1 Rubix2D.init).top
      (rotate_side 1 Rubix2D.init).front (rotate_side 1 Rubix2D.init).left
      (rotate_side 1 Rubix2D.init).right (rotate_side 1 Rubix2D.init).back
      (rotate_side 1 Rubix2D.init).bottom = some [10] ∧
    (rotate_side 10 (rotate_side 1 Rubix2D.init)).is_solved = true) :=
  ⟨by decide, c1_solver_returns_inverse 1 (by decide)⟩

/-- C2: for every move `m` in 1-9 and every state over any cell type,
applying `rotate_side m` and then `rotate_side (m+9)` returns exactly the
original state. -/
theorem c2_move_then_inverse {α : Type} (m : Nat) (h1 : 1 ≤ m) (h2 : m ≤ 9)
    (s : Rubix2D α) : rotate_side (m + 9) (rotate_side m s) = s := by
  interval_cases m <;>
    (apply Rubix2D.ext <;> funext i j <;> fin_cases i <;> fin_cases j <;> rfl)

/-- Witness for C2 at move 1 on the initial state. -/
theorem c2_witness :
    1 ≤ 1 ∧ 1 ≤ 9 ∧ rotate_side (1 + 9) (rotate_side 1 Rubix2D.init) = Rubix2D.init :=
  ⟨by decide, by decide, c2_move_then_inverse 1 (by decide) (by decide) Rubix2D.init⟩

/-- C3: the freshly constructed state is solved, and after any single move
1-18 it is no longer solved. -/
theorem c3_solved_iff_untouched :
    Rubix2D.init.is_solved = true ∧
    ∀ m : Nat, 1 ≤ m → m ≤ 18 → (rotate_side m Rubix2D.init).is_solved = false := by
  refine ⟨by decide, ?_⟩
  have h : ∀ m : Nat, m < 19 → 1 ≤ m → (rotate_side m Rubix2D.init).is_solved = false := by
    decide
  exact fun m h1 h2 => h m (by omega) h1

/-- Witness for C3 at move 5. -/
theorem c3_witness :
    1 ≤ 5 ∧ 5 ≤ 18 ∧ (rotate_side 5 Rubix2D.init).is_solved = false :=
  ⟨by decide, by decide, c3_solved_iff_untouched.2 5 (by decide) (by decide)⟩

/-- C4: the number of cells holding any given colour, summed over all six
grids, is unchanged by every move 1-18, for every state over any cell type. -/
theorem c4_colour_conservation {α : Type} [DecidableEq α] (s : Rubix2D α) (c : α)
    (m : Nat) (h1 : 1 ≤ m) (h2 : m ≤ 18) :
    colourCount (rotate_side m s) c = colourCount s c :=
  colourCount_rotate_side m h1 h2 s c

/-- Witness for C4 at move 1, colour yellow, on the initial state. -/
theorem c4_witness :
    1 ≤ 1 ∧ 1 ≤ 18 ∧
    colourCount (rotate_side 1 Rubix2D.init) Colour.yellow
      = colourCount Rubix2D.init Colour.yellow :=
  ⟨by decide, by decide,
    c4_colour_conservation Rubix2D.init Colour.yellow 1 (by decide) (by decide)⟩

/-- C5: `transform_coord` raises `TransformationError` exactly when the z
component is ≤ 0, and for z > 0 returns
`((x / z * 15) * scale_factor, (y / z * 15) * scale_factor)`. -/
theorem c5_transform_coord_spec (vert : ℚ × ℚ × ℚ) (scale_factor : ℚ) :
    ((engine.transform_coord vert scale_factor
        = Except.error engine.TransformationError.behindCamera) ↔ vert.2.2 ≤ 0) ∧
    (0 < vert.2.2 → engine.transform_coord vert scale_factor
        = Except.ok (vert.1 / vert.2.2 * 15 * scale_factor,
                     vert.2.1 / vert.2.2 * 15 * scale_factor)) := by
  unfold engine.transform_coord
  constructor
  · constructor
    · intro h
      by_contra hz
      rw [if_neg hz] at h
      cases h
    · intro hz
      rw [if_pos hz]
  · intro hz
    rw [if_neg (by linarith : ¬vert.2.2 ≤ 0)]

/-- Witness for C5 at the point (2, 4, 2) with the default scale factor 25. -/
theorem c5_witness :
    (0 : ℚ) < 2 ∧ engine.transform_coord (2, 4, 2) 25
      = Except.ok (2 / 2 * 15 * 25, 4 / 2 * 15 * 25) :=
  ⟨by norm_num, (c5_transform_coord_spec (2, 4, 2) 25).2 (by norm_num)⟩

/-- C6 counterexample: the claim that each axis-named rotation fixes the
coordinate of its own name fails on the code. At the 90° angle (whose
cosine and sine, computed by the `rotation` decorator, are 0 and 1),
`rotate_x` moves the x coordinate of (1, 0, 0) to 0 and `rotate_y` moves
the y coordinate of (0, 1, 0) to 0: `rotate_x` actually rotates the x-z
pair (holding y) and `rotate_y` rotates the y-z pair (holding x). -/
theorem c6_counterexample :
    (engine.rotate_x (1, 0, 0) (0, 0, 0) 0 1).1 ≠ 1 ∧
    (engine.rotate_y (0, 1, 0) (0, 0, 0) 0 1).2.1 ≠ 1 := by
  constructor <;> norm_num [engine.rotate_x, engine.rotate_y]

/-- C6 amended: for every point, centre, and angle (given by its cosine and
sine), `rotate_x` holds the y coordinate fixed and applies the standard 2D
cosine/sine rotation to the (x, z) pair, `rotate_y` holds the x coordinate
fixed and rotates the (y, z) pair, and `rotate_z` holds the z coordinate
fixed and rotates the (x, y) pair. -/
theorem c6_axis_rotations_amended (vert center : ℚ × ℚ × ℚ) (cos sin : ℚ) :
    engine.rotate_x vert center cos sin
      = ((engine.rot2 vert.1 vert.2.2 center.1 center.2.2 cos sin).1, vert.2.1,
         (engine.rot2 vert.1 vert.2.2 center.1 center.2.2 cos sin).2) ∧
    engine.rotate_y vert center cos sin
      = (vert.1, (engine.rot2 vert.2.1 vert.2.2 center.2.1 center.2.2 cos sin).1,
         (engine.rot2 vert.2.1 vert.2.2 center.2.1 center.2.2 cos sin).2) ∧
    engine.rotate_z vert center cos sin
      = ((engine.rot2 vert.1 vert.2.1 center.1 center.2.1 cos sin).1,
         (engine.rot2 vert.1 vert.2.1 center.1 center.2.1 cos sin).2, vert.2.2) :=
  ⟨rfl, rfl, rfl⟩

/-- C7 counterexample: an out-of-range move identifier is not rejected with
an error; the `match` in `rotate_side` has no case for it and the call
succeeds silently, leaving the state exactly unchanged. -/
theorem c7_counterexample :
    rotate_side 19 Rubix2D.init = Rubix2D.init ∧
    rotate_side 0 Rubix2D.init = Rubix2D.init :=
  ⟨rfl, rfl⟩

/-- C7 amended: for every move identifier outside 1-18, `rotate_side` is a
silent no-op: it returns the state unchanged and signals nothing. -/
theorem c7_out_of_range_noop {α : Type} (idx : Nat) (h : idx = 0 ∨ 19 ≤ idx)
    (s : Rubix2D α) : rotate_side idx s = s := by
  rcases h with rfl | h
  · rfl
  · obtain ⟨k, rfl⟩ := Nat.exists_eq_add_of_le h
    rw [Nat.add_comm]
    rfl

/-- Witness for the amended C7 at identifier 25. -/
theorem c7_witness :
    ((25 : Nat) = 0 ∨ 19 ≤ 25) ∧ rotate_side 25 Rubix2D.init = Rubix2D.init :=
  ⟨Or.inr (by decide), c7_out_of_range_noop 25 (Or.inr (by decide)) Rubix2D.init⟩

/-- C8: a middle-layer turn rotates no face grid of its own, for any number
of iterations and any state: `rotate_x(1, iters)` leaves the top and bottom
grids unchanged, `rotate_y(1, iters)` the left and right grids, and
`rotate_z(1, iters)` the front and back grids. -/
theorem c8_middle_layer_frames {α : Type} (s : Rubix2D α) (iters : Nat) :
    (s.rotate_x 1 iters).top = s.top ∧ (s.rotate_x 1 iters).bottom = s.bottom ∧
    (s.rotate_y 1 iters).left = s.left ∧ (s.rotate_y 1 iters).right = s.right ∧
    (s.rotate_z 1 iters).front = s.front ∧ (s.rotate_z 1 iters).back = s.back := by
  refine ⟨?_, ?_, ?_, ?_, ?_, ?_⟩
  · exact iterate_rotate_x_step_top 1 iters s
  · exact iterate_rotate_x_step_bottom 1 iters s
  · exact iterate_rotate_y_step_left 1 iters s
  · exact iterate_rotate_y_step_right 1 iters s
  · exact iterate_rotate_z_step_front 1 iters s
  · exact iterate_rotate_z_step_back 1 iters s

/-- C9: on the startup scene, layer selection along the y axis with target 1
accepts exactly the 9 cubes whose lattice y coordinate is 1 (9 accepted in
total), and for each cube the maximum and minimum of its face-vertex y
coordinates are its lattice y ± 1/2, so acceptance is exactly
`max > target > min`. -/
theorem c9_layer_selection :
    (graphics.mainCubes.filter fun c => graphics.filter_cubes c 1 1).length = 9 ∧
    ∀ c ∈ graphics.mainCubes,
      ((graphics.filter_cubes c 1 1 = true) ↔ c.y = 1) ∧
      (graphics.vertCoords c 1).max? = some ((c.y : ℚ) + 1/2) ∧
      (graphics.vertCoords c 1).min? = some ((c.y : ℚ) - 1/2) := by
  constructor
  · simp [graphics.mainCubes, List.filter_cons, graphics.filter_cubes_y1]
  · intro c hc
    fin_cases hc <;>
      exact ⟨by rw [graphics.filter_cubes_y1]; simp,
        graphics.vertCoords_y_max, graphics.vertCoords_y_min⟩

/-- Witness for C9 at the first cube of the scene (the centre cube, y = 0,
rejected by the filter). -/
theorem c9_witness :
    (⟨0, 0, 0, ["black", "black", "black", "black", "black", "black"]⟩ : graphics.Cube)
      ∈ graphics.mainCubes ∧
    ((graphics.filter_cubes
        ⟨0, 0, 0, ["black", "black", "black", "black", "black", "black"]⟩ 1 1 = true) ↔
      (⟨0, 0, 0, ["black", "black", "black", "black", "black", "black"]⟩ : graphics.Cube).y
        = 1) :=
  ⟨List.mem_cons_self _ _,
    (c9_layer_selection.2 _ (List.mem_cons_self _ _)).1⟩

/-- C10: `breath_first_search` never writes to the caller's six grid
objects: in the heap model, a run started on a store in which the six
argument addresses are allocated leaves the contents of every one of those
addresses exactly as it found them (the search works only on fresh deep
copies). -/
theorem c10_solver_frame (fuel : Nat) (top front left right back bottom : Nat)
    (σ : Store Colour) (h1 : top < σ.next) (h2 : front < σ.next) (h3 : left < σ.next)
    (h4 : right < σ.next) (h5 : back < σ.next) (h6 : bottom < σ.next) :
    (breath_first_searchS fuel top front left right back bottom σ).2.read top
        = σ.read top ∧
    (breath_first_searchS fuel top front left right back bottom σ).2.read front
        = σ.read front ∧
    (breath_first_searchS fuel top front left right back bottom σ).2.read left
        = σ.read left ∧
    (breath_first_searchS fuel top front left right back bottom σ).2.read right
        = σ.read right ∧
    (breath_first_searchS fuel top front left right back bottom σ).2.read back
        = σ.read back ∧
    (breath_first_searchS fuel top front left right back bottom σ).2.read bottom
        = σ.read bottom :=
  have h := frame_breath_first_searchS fuel top front left right back bottom σ
  ⟨h.2 top h1, h.2 front h2, h.2 left h3, h.2 right h4, h.2 back h5, h.2 bottom h6⟩

/-- Witness for C10: a store of six allocated grids, all red, searched with
fuel 1; the caller's top grid object is untouched. -/
theorem c10_witness :
    (0 : Nat) < (⟨fun _ => fun _ _ => Colour.red, 6⟩ : Store Colour).next ∧
    (breath_first_searchS 1 0 1 2 3 4 5
        ⟨fun _ => fun _ _ => Colour.red, 6⟩).2.read 0
      = Store.read ⟨fun _ => fun _ _ => Colour.red, 6⟩ 0 :=
  ⟨by decide,
    (c10_solver_frame 1 0 1 2 3 4 5 ⟨fun _ => fun _ _ => Colour.red, 6⟩
      (by decide) (by decide) (by decide) (by decide) (by decide) (by decide)).1⟩
